import Mathlib

/-!
Verification of the DIDMan cache-coherent fetch/aggregation pipeline.

Shallow embedding of the Python sources:
  - `report_generator.py` / `report_cli.py`: `filter_rows_by_day`,
    `calculate_expiring_days`, `aggregate_report_data`,
    `format_and_print_terminal_report`
  - `data_fetcher.py`: `check_cache_status`, `run_data_fetch`,
    `load_data_from_cache` / `save_data_to_cache` (JSON round trip)
  - `data_fetch_script.py`: the per-sheet loop of
    `find_rows_with_target_day_interactive`

Impure ingredients are made explicit parameters: `date.today()` becomes a
`PyDate` argument, the filesystem mtime becomes an `Option ℚ`, the network
fetch of one sheet becomes a function `String → Option rows` (`none` models a
raised exception), and printing becomes a returned list of printed strings.
Python `dict`s keyed by sheet name become association lists in insertion
order; Python floats become `ℚ`.
-/

namespace DIDMan

/-- A value of Python's `datetime.date` / the date part of `datetime`. -/
structure PyDate where
  year : Nat
  month : Nat
  day : Nat
deriving DecidableEq, Repr

/-- Proleptic-Gregorian leap year test, as used by Python's `datetime`. -/
def isLeapYear (y : Nat) : Bool :=
  (y % 4 == 0 && y % 100 != 0) || y % 400 == 0

/-- Number of days in month `m` of year `y` (for `m` in `1..12`). -/
def daysInMonth (y m : Nat) : Nat :=
  if m == 2 then (if isLeapYear y then 29 else 28)
  else if m == 4 || m == 6 || m == 9 || m == 11 then 30
  else 31

/-- Whether `date(y, m, d)` succeeds in Python (`ValueError` otherwise). -/
def dateValidB (y m d : Nat) : Bool :=
  1 ≤ y && y ≤ 9999 && 1 ≤ m && m ≤ 12 && 1 ≤ d && d ≤ daysInMonth y m

/-- Days contributed by the full years before year `y` (proleptic Gregorian). -/
def daysBeforeYear (y : Nat) : Nat :=
  365 * (y - 1) + (y - 1) / 4 - (y - 1) / 100 + (y - 1) / 400

/-- Days contributed by the full months of year `y` before month `m`. -/
def daysBeforeMonth (y m : Nat) : Nat :=
  ((List.range (m - 1)).map (fun k => daysInMonth y (k + 1))).sum

/-- Python `date.toordinal()`: the day number of a date, so that subtracting two
dates in Python yields the difference of their ordinals. -/
def toOrdinal (d : PyDate) : Int :=
  (daysBeforeYear d.year : Int) + daysBeforeMonth d.year d.month + d.day

/-- Embedding of `calculate_expiring_days` (report_generator.py:55-64, report_cli.py:91-100):
builds `date(today.year, today.month, target_day)`; on `ValueError` returns
`0`, otherwise returns `(target_date - today).days`. -/
def calculate_expiring_days (today : PyDate) (target_day : Nat) : Int :=
  if dateValidB today.year today.month target_day then
    toOrdinal ⟨today.year, today.month, target_day⟩ - toOrdinal today
  else 0

/-- Python's `str.strip()`: remove leading and trailing whitespace. -/
def pyStrip (s : String) : String :=
  String.mk
    (((s.data.dropWhile Char.isWhitespace).reverse.dropWhile
        Char.isWhitespace).reverse)

/-- Python's `str.replace(c, "")` for a one-character needle: remove every
occurrence of `c`. -/
def removeChar (c : Char) (s : String) : String :=
  String.mk (s.data.filter (fun x => x != c))

/-- Splitting a character list at a one-character separator, like Python's
`str.split(sep)` on every occurrence. -/
def splitOnChar (sep : Char) : List Char → List (List Char)
  | [] => [[]]
  | c :: rest =>
    let r := splitOnChar sep rest
    if c = sep then [] :: r
    else
      match r with
      | h :: t => (c :: h) :: t
      | [] => [[c]]

/-- Value of a digit string, most significant digit first. -/
def digitsToNat (l : List Char) : Nat :=
  l.foldl (fun n c => n * 10 + (c.toNat - 48)) 0

/-- A non-empty all-digit character list. -/
def allDigits (l : List Char) : Bool :=
  decide (l ≠ []) && l.all Char.isDigit

/-- Python `datetime.strptime(s, "%m/%d/%Y")` reduced to its success/failure and the
resulting date: one-or-two-digit month and day, exactly four-digit year,
separated by `/`, and the resulting date must be a valid calendar date. -/
def strptime_mdY (s : String) : Option PyDate :=
  match splitOnChar '/' s.data with
  | [ms, ds, ys] =>
    if allDigits ms && ms.length ≤ 2
        && allDigits ds && ds.length ≤ 2
        && allDigits ys && ys.length == 4 then
      let m := digitsToNat ms
      let d := digitsToNat ds
      let y := digitsToNat ys
      if dateValidB y m d then some ⟨y, m, d⟩ else none
    else none
  | _ => none

/-- Python `float(s)` on the decimal literals the pipeline feeds it:
optional sign, then `digits`, `digits.digits`, `digits.` or `.digits`.
`none` models the raised `ValueError`. -/
def parseFloat (s : String) : Option ℚ :=
  let core := fun (t : List Char) (sign : ℚ) =>
    match splitOnChar '.' t with
    | [a] =>
      if allDigits a then some (sign * (digitsToNat a : ℚ)) else none
    | [a, b] =>
      if (decide (a ≠ []) || decide (b ≠ []))
          && a.all Char.isDigit && b.all Char.isDigit then
        some (sign * ((digitsToNat a : ℚ)
          + (digitsToNat b : ℚ) / (10 : ℚ) ^ b.length))
      else none
    | _ => none
  match s.data with
  | [] => none
  | c :: rest =>
    if c = '-' then core rest (-1)
    else if c = '+' then core rest 1
    else core (c :: rest) 1

/-- The configuration dictionary (`CONFIG`), restricted to the keys the core
pipeline reads.  `sheetDateParse` stands for
`datetime.strptime(·, CONFIG['SHEET_DATE_FORMAT'])`. -/
structure Config where
  dateColumnIndex : Nat
  priceColumnIndex : Nat
  sheetDateParse : String → Option PyDate
  defaultStatus : String
  terminalHeaders : List String
  cacheLifetimeHours : ℚ

/-- The concrete `CONFIG` of report_generator.py / data_fetcher.py. -/
def CONFIG : Config :=
  { dateColumnIndex := 1
    priceColumnIndex := 3
    sheetDateParse := strptime_mdY
    defaultStatus := "Active"
    terminalHeaders :=
      ["Serial", "Client", "DID Qty", "DID Rate", "Total Price",
       "Expiring in Days", "Status"]
    cacheLifetimeHours := 24 }

/-- The loop body of `filter_rows_by_day`: walk the rows after the header,
appending to `matching_rows` every row that is long enough, whose date cell
parses, and whose parsed day equals the target day. -/
def filterLoop (parse : String → Option PyDate) (target_day : Nat)
    (date_col_index : Nat) (acc : List (List String)) :
    List (List String) → List (List String)
  | [] => acc
  | row :: rest =>
    match row[date_col_index]? with
    | some cell =>
      match parse (pyStrip cell) with
      | some d =>
        if d.day = target_day then
          filterLoop parse target_day date_col_index (acc ++ [row]) rest
        else
          filterLoop parse target_day date_col_index acc rest
      | none => filterLoop parse target_day date_col_index acc rest
    | none => filterLoop parse target_day date_col_index acc rest

/-- Embedding of `filter_rows_by_day(sheet_data, target_day, config)`
(report_generator.py:37-53, report_cli.py:73-89, sheet_search.py:141-157). -/
def filter_rows_by_day (sheet_data : List (List String)) (target_day : Nat)
    (cfg : Config) : List (List String) :=
  filterLoop cfg.sheetDateParse target_day cfg.dateColumnIndex []
    (sheet_data.drop 1)

/-- The price contribution of one matched row
(report_generator.py:81-86): index the price column (an `IndexError`
contributes nothing), strip `$` and `,` everywhere and whitespace at the
ends, then `float(...)`; a `ValueError` also contributes nothing. -/
def parse_price (price_index : Nat) (row : List String) : ℚ :=
  match row[price_index]? with
  | none => 0
  | some cell =>
    match parseFloat (pyStrip (removeChar ',' (removeChar '$' cell))) with
    | some q => q
    | none => 0

/-- One line of the aggregated report (the dict built at
report_generator.py:90-94). -/
structure SummaryRecord where
  client : String
  didQty : Nat
  didRate : ℚ
  totalPrice : ℚ
  expiringInDays : Int
  status : String
deriving DecidableEq, Repr

/-- The per-sheet body of the `aggregate_report_data` loop: `none` models the
`continue` taken when no row matches. -/
def summarize (expiring : Int) (target_day : Nat) (cfg : Config)
    (entry : String × List (List String)) : Option SummaryRecord :=
  let matching := filter_rows_by_day entry.2 target_day cfg
  if matching = [] then none
  else
    let did_qty := matching.length
    let total_price := (matching.map (parse_price cfg.priceColumnIndex)).sum
    some { client := entry.1
           didQty := did_qty
           didRate := if 0 < did_qty then total_price / (did_qty : ℚ) else 0
           totalPrice := total_price
           expiringInDays := expiring
           status := cfg.defaultStatus }

/-- A snapshot: the Python `dict` from sheet name to raw rows, in insertion
order. -/
abbrev CacheData := List (String × List (List String))

/-- Embedding of `aggregate_report_data(global_cache, target_day, config)`
(report_generator.py:66-96, report_cli.py:102-143), with `date.today()`
passed explicitly. -/
def aggregate_report_data (global_cache : CacheData) (today : PyDate)
    (target_day : Nat) (cfg : Config) : List SummaryRecord :=
  global_cache.filterMap
    (summarize (calculate_expiring_days today target_day) target_day cfg)

/-- Python `datetime.min`, the sentinel "never modified" timestamp, expressed in
seconds relative to the Unix epoch (0001-01-01T00:00:00). -/
def datetimeMin : ℚ := -62135596800

/-- Embedding of `check_cache_status(config)` (data_fetcher.py:38-51), with the file's
last-modified time (`none` when the cache file does not exist) and
`datetime.now()` as explicit parameters, both in epoch seconds. -/
def check_cache_status (mtime : Option ℚ) (now : ℚ) (cfg : Config) :
    Bool × ℚ :=
  match mtime with
  | none => (false, datetimeMin)
  | some mt => (decide (now - mt < cfg.cacheLifetimeHours * 3600), mt)

/-- First lookup of a key in an association list: Python's `d[k]` /
`k in d` on a `dict`. -/
def dictFind (d : CacheData) (k : String) : Option (List (List String)) :=
  match d with
  | [] => none
  | (k', v) :: rest => if k' = k then some v else dictFind rest k

/-- The loop body of `run_data_fetch` (data_fetcher.py:100-112): fetch a
sheet only when its name is not yet in the cache; on success insert it and
bump `sheets_fetched`, on an exception (`fetch name = none`) print and
continue. -/
def fetchStep (fetch : String → Option (List (List String)))
    (st : CacheData × Nat) (name : String) : CacheData × Nat :=
  if (dictFind st.1 name).isSome then st
  else
    match fetch name with
    | some rows => (st.1 ++ [(name, rows)], st.2 + 1)
    | none => st

/-- Embedding of `run_data_fetch` (data_fetcher.py:85-115) restricted to its loop and the
snapshot it persists: returns the cache passed to `save_data_to_cache`
together with `sheets_fetched`. -/
def run_data_fetch (fetch : String → Option (List (List String)))
    (sheet_names : List String) (existing : CacheData) : CacheData × Nat :=
  sheet_names.foldl (fetchStep fetch) (existing, 0)

/-- The counters of the `report` dict of
`find_rows_with_target_day_interactive` (data_fetch_script.py:159-163). -/
structure FetchReport where
  totalSheets : Nat
  totalMatches : Nat
  sheetsProcessed : Nat
  sheetsSkippedEmpty : Nat
  sheetsSkippedError : Nat
  sheetsLoadedFromCache : Nat
deriving DecidableEq, Repr

/-- The per-worksheet body of `find_rows_with_target_day_interactive`
(data_fetch_script.py:182-227), with `USE_CACHE = True` as configured:
cache hit loads the cached rows, cache miss calls `fetch` (`none` models a
raised exception: bump `sheets_skipped_error` and continue), non-empty
fetched rows are inserted into the cache, then empty/header-only sheets are
skipped and matches of the surviving sheets are counted. -/
def processSheet (fetch : String → Option (List (List String)))
    (target_day : Nat) (cfg : Config) (st : CacheData × FetchReport)
    (name : String) : CacheData × FetchReport :=
  let cache := st.1
  let rep := st.2
  match dictFind cache name with
  | some rows =>
    let rep :=
      { rep with sheetsLoadedFromCache := rep.sheetsLoadedFromCache + 1 }
    if rows.length ≤ 1 then
      (cache, { rep with sheetsSkippedEmpty := rep.sheetsSkippedEmpty + 1 })
    else
      (cache,
       { rep with totalMatches :=
          rep.totalMatches + (filter_rows_by_day rows target_day cfg).length })
  | none =>
    match fetch name with
    | none =>
      (cache, { rep with sheetsSkippedError := rep.sheetsSkippedError + 1 })
    | some rows =>
      let rep := { rep with sheetsProcessed := rep.sheetsProcessed + 1 }
      let cache := if rows = [] then cache else cache ++ [(name, rows)]
      if rows.length ≤ 1 then
        (cache, { rep with sheetsSkippedEmpty := rep.sheetsSkippedEmpty + 1 })
      else
        (cache,
         { rep with totalMatches :=
            rep.totalMatches
              + (filter_rows_by_day rows target_day cfg).length })

/-- Embedding of `find_rows_with_target_day_interactive` (data_fetch_script.py:157-245)
restricted to its worksheet loop: returns the cache handed to
`save_data_to_cache` at step 5 together with the final report counters. -/
def find_rows_with_target_day_interactive
    (fetch : String → Option (List (List String))) (sheet_names : List String)
    (target_day : Nat) (cfg : Config) (existing : CacheData) :
    CacheData × FetchReport :=
  sheet_names.foldl (processSheet fetch target_day cfg)
    (existing,
     { totalSheets := sheet_names.length, totalMatches := 0
       sheetsProcessed := 0, sheetsSkippedEmpty := 0
       sheetsSkippedError := 0, sheetsLoadedFromCache := 0 })

/-- Bumping the failure counter (`report['sheets_skipped_error'] += 1`). -/
def bumpSkippedError (r : FetchReport) : FetchReport :=
  { r with sheetsSkippedError := r.sheetsSkippedError + 1 }

/-! ## JSON cache persistence

`save_data_to_cache` is `json.dump` of the `dict[str, list[list[str]]]`
snapshot and `load_data_from_cache` is `json.load` of the same file
(data_fetcher.py:53-70).  The serialization is modelled at the JSON-value
level: the subset of JSON the cache uses (strings, arrays, objects). -/

/-- JSON values, as produced/consumed by `json.dump` / `json.load` for the
cache file. -/
inductive Json where
  | str : String → Json
  | arr : List Json → Json
  | obj : List (String × Json) → Json

/-- Encoding of one sheet's rows: an array of arrays of strings. -/
def encodeRows (rows : List (List String)) : Json :=
  .arr (rows.map (fun r => .arr (r.map Json.str)))

/-- The `json.dump` encoding of the snapshot: an object with one field per sheet. -/
def encodeCache (c : CacheData) : Json :=
  .obj (c.map (fun e => (e.1, encodeRows e.2)))

/-- Decoding the cells of one row: every element must be a string. -/
def decodeCells : List Json → Option (List String)
  | [] => some []
  | .str s :: rest => (decodeCells rest).map (fun cs => s :: cs)
  | _ => none

/-- Decoding a list of rows: every element must be an array of strings. -/
def decodeRowList : List Json → Option (List (List String))
  | [] => some []
  | .arr cells :: rest =>
    match decodeCells cells, decodeRowList rest with
    | some r, some rs => some (r :: rs)
    | _, _ => none
  | _ => none

/-- Decoding one sheet's value: must be an array of rows. -/
def decodeRows : Json → Option (List (List String))
  | .arr items => decodeRowList items
  | _ => none

/-- Decoding the fields of the top-level object, in order. -/
def decodeFields :
    List (String × Json) → Option (List (String × List (List String)))
  | [] => some []
  | (k, vj) :: rest =>
    match decodeRows vj, decodeFields rest with
    | some v, some tl => some ((k, v) :: tl)
    | _, _ => none

/-- Python `dict` insertion: `d[k] = v` updates the first entry with key `k`
in place, or appends a new entry. -/
def dictInsert (d : CacheData) (k : String) (v : List (List String)) :
    CacheData :=
  match d with
  | [] => [(k, v)]
  | (k', v') :: rest =>
    if k' = k then (k', v) :: rest else (k', v') :: dictInsert rest k v

/-- Building the `dict` from the decoded field list, as `json.load` does:
later duplicate keys overwrite earlier ones in place. -/
def dictOfPairs (ps : List (String × List (List String))) : CacheData :=
  ps.foldl (fun d e => dictInsert d e.1 e.2) []

/-- Modelling `json.load` of the cache file, given its parsed JSON value: the top
level must be an object whose values are arrays of arrays of strings. -/
def decodeCache (j : Json) : Option CacheData :=
  match j with
  | .obj fields => (decodeFields fields).map dictOfPairs
  | _ => none

/-! ## Terminal report rendering -/

/-- Python `str.ljust`. -/
def ljust (s : String) (w : Nat) : String :=
  s ++ String.mk (List.replicate (w - s.length) ' ')

/-- Python `c * n` for a one-character string: `n` copies of `c`. -/
def repChar (n : Nat) (c : Char) : String :=
  String.mk (List.replicate n c)

/-- Python `f"{q:.prec f}"` on the rational standing for the float: fixed
point with `prec` digits after the point. -/
def qToFixed (q : ℚ) (prec : Nat) : String :=
  let scaled : Int := ⌊q * (10 : ℚ) ^ prec + 1 / 2⌋
  let n := scaled.natAbs
  let signStr := if scaled < 0 then "-" else ""
  let ip := n / 10 ^ prec
  let fp := n % 10 ^ prec
  let fpStr := toString fp
  if prec = 0 then signStr ++ toString ip
  else signStr ++ toString ip ++ "." ++ repChar (prec - fpStr.length) '0' ++ fpStr

/-- The update `widths[j] = max(widths[j], len(cell))` over one processed row; `none`
models the `IndexError` raised when the row is wider than `widths`. -/
def updateWidths : List Nat → List String → Option (List Nat)
  | ws, [] => some ws
  | [], _ :: _ => none
  | w :: ws, c :: cs => (updateWidths ws cs).map (fun rest => max w c.length :: rest)

/-- The join `"".join(cell.ljust(widths[i]) ...)`; `none` models the `IndexError`
raised when there are more cells than widths. -/
def joinLjust : List Nat → List String → Option String
  | _, [] => some ""
  | [], _ :: _ => none
  | w :: ws, c :: cs => (joinLjust ws cs).map (fun rest => ljust c w ++ rest)

/-- The `processed_row` built for record `i` (report_generator.py:110-119). -/
def processedRow (i : Nat) (line : SummaryRecord) : List String :=
  [toString (i + 1), line.client, toString line.didQty,
   qToFixed line.didRate 3, "$" ++ qToFixed line.totalPrice 2,
   toString line.expiringInDays, line.status]

/-- Embedding of `format_and_print_terminal_report(aggregated_data, target_day, config)`
(report_generator.py:98-143), returning the list of printed strings (one
element per `print` call); `none` models an uncaught `IndexError` in the
width bookkeeping. -/
def format_and_print_terminal_report (aggregated_data : List SummaryRecord)
    (target_day : Nat) (cfg : Config) : Option (List String) :=
  if aggregated_data = [] then
    some ["\n\n--- TERMINAL REPORT ---",
          "No aggregated data found for day " ++ toString target_day ++ "."]
  else
    let printable := aggregated_data.mapIdx processedRow
    match printable.foldl (fun acc row => acc.bind (fun ws => updateWidths ws row))
        (some (cfg.terminalHeaders.map String.length)) with
    | none => none
    | some ws =>
      let widths := ws.map (· + 2)
      match joinLjust widths cfg.terminalHeaders,
          printable.mapM (joinLjust widths) with
      | some headerLine, some rowLines =>
        some (["\n" ++ repChar 85 '=',
               "✨ **DAILY TRANSACTION SUMMARY REPORT for Day "
                 ++ toString target_day ++ "** ✨",
               repChar 85 '-',
               headerLine,
               repChar 85 '-']
              ++ rowLines
              ++ [repChar 85 '-',
                  "Total Unique Clients Reported: " ++ toString printable.length,
                  repChar 85 '='])
      | _, _ => none

/-! ## Row filter: loop/characterization lemmas -/

/-- The accumulator loop of `filter_rows_by_day` computes the header-less
declarative filter: a row survives iff it is long enough, its date cell
parses, and the parsed day equals the target day. -/
theorem filterLoop_eq_filter (parse : String → Option PyDate) (td i : Nat) :
    ∀ (rows acc : List (List String)),
      filterLoop parse td i acc rows
        = acc ++ rows.filter (fun row =>
            (row[i]?).elim false
              (fun cell => (parse (pyStrip cell)).elim false
                (fun d => decide (d.day = td)))) := by
  intro rows
  induction rows with
  | nil => intro acc; simp [filterLoop]
  | cons row rest ih =>
    intro acc
    cases hg : row[i]? with
    | none => simp [filterLoop, hg, ih, List.filter_cons]
    | some cell =>
      cases hp : parse (pyStrip cell) with
      | none => simp [filterLoop, hg, hp, ih, List.filter_cons]
      | some d =>
        by_cases hd : d.day = td
        · simp [filterLoop, hg, hp, hd, ih, List.filter_cons]
        · simp [filterLoop, hg, hp, hd, ih, List.filter_cons]

/-- C2: `filter_rows_by_day` drops the header row, then keeps — in original
order, as a sublist and hence without reordering or deduplication — exactly
the rows that have more than `dateColumnIndex` cells and whose stripped date
cell parses to a date whose day-of-month equals the target day; month and
year play no role in the predicate. -/
theorem filter_rows_by_day_spec (sheet_data : List (List String))
    (target_day : Nat) (cfg : Config) :
    filter_rows_by_day sheet_data target_day cfg
      = (sheet_data.drop 1).filter (fun row =>
          (row[cfg.dateColumnIndex]?).elim false
            (fun cell => (cfg.sheetDateParse (pyStrip cell)).elim false
              (fun d => decide (d.day = target_day))))
    ∧ List.Sublist (filter_rows_by_day sheet_data target_day cfg)
        (sheet_data.drop 1) := by
  have h := filterLoop_eq_filter cfg.sheetDateParse target_day
    cfg.dateColumnIndex (sheet_data.drop 1) []
  refine ⟨by simpa [filter_rows_by_day] using h, ?_⟩
  rw [filter_rows_by_day, h]
  exact (List.filter_sublist _).trans (by simp)

/-- C10: the row filter is a total function of its inputs; its result is
always a sublist of the input minus the header, and for inputs with fewer
than two rows (the empty sheet and the header-only sheet) the result is
always the empty list. -/
theorem filter_rows_by_day_total (sheet_data : List (List String))
    (target_day : Nat) (cfg : Config) :
    List.Sublist (filter_rows_by_day sheet_data target_day cfg)
      (sheet_data.drop 1)
    ∧ (sheet_data.length < 2 →
        filter_rows_by_day sheet_data target_day cfg = []) := by
  have h := filterLoop_eq_filter cfg.sheetDateParse target_day
    cfg.dateColumnIndex (sheet_data.drop 1) []
  constructor
  · rw [filter_rows_by_day, h]
    exact (List.filter_sublist _).trans (by simp)
  · intro hlen
    have hd : sheet_data.drop 1 = [] := by
      apply List.drop_eq_nil_of_le
      omega
    rw [filter_rows_by_day, hd]
    simp [filterLoop]

/-- C10 witness: a header-only sheet filters to the empty list. -/
theorem filter_rows_by_day_total_witness :
    filter_rows_by_day [["h1", "h2"]] 18 CONFIG = [] :=
  (filter_rows_by_day_total [["h1", "h2"]] 18 CONFIG).2 (by decide)

/-! ## Evaluation lemmas for concrete inputs

`Rat` arithmetic does not evaluate inside `decide`, so concrete price and
aggregation values are computed through these lemmas instead. -/

/-- Evaluating `parseFloat` on a string of the shape `digits.digits` that
does not start with a sign. -/
theorem parseFloat_two_part {s : String} {c : Char} {t a b : List Char}
    (hd : s.data = c :: t) (hc1 : c ≠ '-') (hc2 : c ≠ '+')
    (hsplit : splitOnChar '.' (c :: t) = [a, b])
    (hok : ((decide (a ≠ []) || decide (b ≠ []))
        && a.all Char.isDigit && b.all Char.isDigit) = true) :
    parseFloat s
      = some ((digitsToNat a : ℚ)
          + (digitsToNat b : ℚ) / (10 : ℚ) ^ b.length) := by
  simp only [parseFloat, hd]
  rw [if_neg hc1, if_neg hc2]
  simp only [hsplit, hok, if_true]
  simp [one_mul]

/-- Evaluating `parseFloat` on an unsigned string with no dot and a
non-digit character: the `ValueError` case. -/
theorem parseFloat_one_part_none {s : String} {c : Char} {t a : List Char}
    (hd : s.data = c :: t) (hc1 : c ≠ '-') (hc2 : c ≠ '+')
    (hsplit : splitOnChar '.' (c :: t) = [a])
    (hbad : allDigits a = false) :
    parseFloat s = none := by
  simp only [parseFloat, hd]
  rw [if_neg hc1, if_neg hc2]
  simp only [hsplit, hbad]
  simp

/-- Evaluating `parse_price` when the cell is present and its cleaned text
parses. -/
theorem parse_price_eval {i : Nat} {row : List String} {s : String} {r : ℚ}
    (h1 : row[i]? = some s)
    (h2 : parseFloat (pyStrip (removeChar ',' (removeChar '$' s))) = some r) :
    parse_price i row = r := by
  simp [parse_price, h1, h2]

/-- Evaluating `parse_price` when the cell is present but unparsable: the
row contributes `0`. -/
theorem parse_price_eval_none {i : Nat} {row : List String} {s : String}
    (h1 : row[i]? = some s)
    (h2 : parseFloat (pyStrip (removeChar ',' (removeChar '$' s))) = none) :
    parse_price i row = 0 := by
  simp [parse_price, h1, h2]

/-- Evaluating `summarize` on one sheet whose filtered rows and price sum
are known. -/
theorem summarize_eval (e : Int) (td : Nat) (cfg : Config)
    (entry : String × List (List String)) (ms : List (List String)) (q : ℚ)
    (hm : filter_rows_by_day entry.2 td cfg = ms) (hne : ms ≠ [])
    (hq : (ms.map (parse_price cfg.priceColumnIndex)).sum = q) :
    summarize e td cfg entry
      = some ⟨entry.1, ms.length, q / (ms.length : ℚ), q, e,
          cfg.defaultStatus⟩ := by
  simp only [summarize, hm, hq]
  rw [if_neg hne, if_pos (List.length_pos.mpr hne)]

/-! ## Cache freshness (C5) -/

/-- C5: with no cache file the status is `(false, datetime.min)`; with a
file, the cache is judged fresh exactly when `now - mtime` is strictly below
the configured lifetime, so a cache exactly at the lifetime boundary is
stale. -/
theorem check_cache_status_spec (now mt : ℚ) (cfg : Config) :
    check_cache_status none now cfg = (false, datetimeMin)
    ∧ ((check_cache_status (some mt) now cfg).1 = true
        ↔ now - mt < cfg.cacheLifetimeHours * 3600)
    ∧ (now - mt = cfg.cacheLifetimeHours * 3600
        → (check_cache_status (some mt) now cfg).1 = false) := by
  refine ⟨rfl, by simp [check_cache_status], ?_⟩
  intro h
  simp [check_cache_status, h]

/-- C5 witness: a cache whose age is exactly the 24-hour lifetime is stale. -/
theorem check_cache_status_spec_witness :
    (check_cache_status (some 0) 86400 CONFIG).1 = false :=
  (check_cache_status_spec 86400 0 CONFIG).2.2 (by norm_num [CONFIG])

/-! ## Invalid target day (C1) -/

/-- C1 counterexample: on 2026-02-10 with target day 30 the target date does
not exist, yet `calculate_expiring_days` returns the number `0` (its
`except ValueError: return 0` fallback) and `aggregate_report_data`
proceeds and emits a record stamped with 0 — no error is signalled. -/
theorem calculate_expiring_days_counterexample :
    dateValidB 2026 2 30 = false
    ∧ calculate_expiring_days ⟨2026, 2, 10⟩ 30 = 0
    ∧ aggregate_report_data
        [("Acme", [["h1", "h2", "h3", "h4"], ["x", "01/30/2026", "y", "$5.00"]])]
        ⟨2026, 2, 10⟩ 30 CONFIG
      = [{ client := "Acme", didQty := 1, didRate := 5, totalPrice := 5,
           expiringInDays := 0, status := "Active" }] := by
  refine ⟨by decide, by decide, ?_⟩
  have hf : parseFloat "5.00" = some 5 := by
    rw [parseFloat_two_part (c := '5') (t := ['.', '0', '0'])
      (a := ['5']) (b := ['0', '0']) (by decide) (by decide) (by decide)
      (by decide) (by decide)]
    simp only [show digitsToNat ['5'] = 5 from by decide,
      show digitsToNat ['0', '0'] = 0 from by decide,
      show (['0', '0'] : List Char).length = 2 from rfl]
    norm_num
  have hpp : parse_price 3 ["x", "01/30/2026", "y", "$5.00"] = 5 := by
    refine parse_price_eval (s := "$5.00") (by decide) ?_
    rw [show pyStrip (removeChar ',' (removeChar '$' "$5.00")) = "5.00"
      from by decide]
    exact hf
  have hsum : summarize 0 30 CONFIG
      ("Acme", [["h1", "h2", "h3", "h4"], ["x", "01/30/2026", "y", "$5.00"]])
      = some ⟨"Acme", 1, 5 / (1 : ℚ), 5, 0, "Active"⟩ := by
    have h := summarize_eval 0 30 CONFIG
      ("Acme", [["h1", "h2", "h3", "h4"], ["x", "01/30/2026", "y", "$5.00"]])
      [["x", "01/30/2026", "y", "$5.00"]] 5
      (by decide) (by decide) (by simp [hpp, CONFIG])
    simpa [CONFIG] using h
  have hexp : calculate_expiring_days ⟨2026, 2, 10⟩ 30 = 0 := by decide
  simp only [aggregate_report_data, hexp, List.filterMap_cons,
    List.filterMap_nil, hsum]
  simp [SummaryRecord.mk.injEq]

/-! ## Aggregation (C1 amended, C3, C4) -/

/-- Everything `summarize` guarantees about an emitted record. -/
theorem summarize_eq_some {e : Int} {td : Nat} {cfg : Config}
    {entry : String × List (List String)} {rec : SummaryRecord}
    (h : summarize e td cfg entry = some rec) :
    filter_rows_by_day entry.2 td cfg ≠ []
    ∧ rec.client = entry.1
    ∧ rec.didQty = (filter_rows_by_day entry.2 td cfg).length
    ∧ rec.totalPrice = ((filter_rows_by_day entry.2 td cfg).map
        (parse_price cfg.priceColumnIndex)).sum
    ∧ rec.didRate = rec.totalPrice / (rec.didQty : ℚ)
    ∧ rec.expiringInDays = e
    ∧ rec.status = cfg.defaultStatus := by
  by_cases hm : filter_rows_by_day entry.2 td cfg = []
  · exfalso
    simp [summarize, hm] at h
  · simp only [summarize] at h
    rw [if_neg hm] at h
    have h3 := Option.some.inj h
    subst h3
    refine ⟨hm, rfl, rfl, rfl, ?_, rfl, rfl⟩
    simp only
    rw [if_pos (List.length_pos.mpr hm)]

/-- In an association list with pairwise distinct keys, a key determines its
value. -/
theorem nodupKeys_snd_eq {l : CacheData} {a : String}
    {b c : List (List String)} (hnd : (l.map Prod.fst).Nodup)
    (h1 : (a, b) ∈ l) (h2 : (a, c) ∈ l) : b = c := by
  induction l with
  | nil => cases h1
  | cons e tl ih =>
    rw [List.map_cons, List.nodup_cons] at hnd
    rcases List.mem_cons.mp h1 with h1 | h1 <;>
      rcases List.mem_cons.mp h2 with h2 | h2
    · exact (Prod.ext_iff.mp (h1.trans h2.symm)).2
    · exfalso
      exact hnd.1 (h1 ▸ List.mem_map.mpr ⟨(a, c), h2, rfl⟩)
    · exfalso
      exact hnd.1 (h2 ▸ List.mem_map.mpr ⟨(a, b), h1, rfl⟩)
    · exact ih hnd.2 h1 h2

/-- C1 (amended): when the target day is invalid for the current month,
`calculate_expiring_days` silently returns `0` and aggregation proceeds,
stamping `0` into the Expiring-in-Days field of every emitted record; no
error is signalled. -/
theorem calculate_expiring_days_amended (today : PyDate) (target_day : Nat)
    (snap : CacheData) (cfg : Config)
    (h : dateValidB today.year today.month target_day = false) :
    calculate_expiring_days today target_day = 0
    ∧ ∀ rec ∈ aggregate_report_data snap today target_day cfg,
        rec.expiringInDays = 0 := by
  have h0 : calculate_expiring_days today target_day = 0 := by
    simp [calculate_expiring_days, h]
  refine ⟨h0, ?_⟩
  intro rec hrec
  simp only [aggregate_report_data] at hrec
  obtain ⟨entry, hmem, hsum⟩ := List.mem_filterMap.mp hrec
  have he := (summarize_eq_some hsum).2.2.2.2.2.1
  rw [he, h0]

/-- C1 witness for the amended claim: February 2026 has no day 30. -/
theorem calculate_expiring_days_amended_witness :
    calculate_expiring_days ⟨2026, 2, 10⟩ 30 = 0
    ∧ ∀ rec ∈ aggregate_report_data [] ⟨2026, 2, 10⟩ 30 CONFIG,
        rec.expiringInDays = 0 :=
  calculate_expiring_days_amended ⟨2026, 2, 10⟩ 30 [] CONFIG (by decide)

/-- C3: every emitted record has at least one matched row and its average
rate is exactly its total price divided by its count; a sheet whose filtered
match set is empty yields no record at all. -/
theorem aggregate_report_data_spec (snap : CacheData) (today : PyDate)
    (target_day : Nat) (cfg : Config) :
    (∀ rec ∈ aggregate_report_data snap today target_day cfg,
        1 ≤ rec.didQty ∧ rec.didRate = rec.totalPrice / (rec.didQty : ℚ))
    ∧ ∀ name rows, (name, rows) ∈ snap → (snap.map Prod.fst).Nodup
        → filter_rows_by_day rows target_day cfg = []
        → name ∉ (aggregate_report_data snap today target_day cfg).map
            SummaryRecord.client := by
  constructor
  · intro rec hrec
    simp only [aggregate_report_data] at hrec
    obtain ⟨entry, hmem, hsum⟩ := List.mem_filterMap.mp hrec
    obtain ⟨hne, _, hqty, _, hrate, _, _⟩ := summarize_eq_some hsum
    refine ⟨?_, hrate⟩
    rw [hqty]
    exact List.length_pos.mpr hne
  · intro name rows hmem hnd hempty hcontra
    obtain ⟨rec, hrec, hclient⟩ := List.mem_map.mp hcontra
    simp only [aggregate_report_data] at hrec
    obtain ⟨⟨en, erows⟩, hent, hsum⟩ := List.mem_filterMap.mp hrec
    obtain ⟨hne, hcl, _⟩ := summarize_eq_some hsum
    have hen : en = name := hcl.symm.trans hclient
    subst hen
    rw [nodupKeys_snd_eq hnd hent hmem] at hne
    exact hne hempty

/-- Evaluation: `float("10.00")` is 10. -/
theorem parseFloat_10_00 : parseFloat "10.00" = some 10 := by
  rw [parseFloat_two_part (c := '1') (t := ['0', '.', '0', '0'])
    (a := ['1', '0']) (b := ['0', '0']) (by decide) (by decide) (by decide)
    (by decide) (by decide)]
  simp only [show digitsToNat ['1', '0'] = 10 from by decide,
    show digitsToNat ['0', '0'] = 0 from by decide,
    show (['0', '0'] : List Char).length = 2 from rfl]
  norm_num

/-- Evaluation: `float("1234.50")` is 1234.5 = 2469/2. -/
theorem parseFloat_1234_50 : parseFloat "1234.50" = some (2469 / 2) := by
  rw [parseFloat_two_part (c := '1') (t := ['2', '3', '4', '.', '5', '0'])
    (a := ['1', '2', '3', '4']) (b := ['5', '0']) (by decide) (by decide)
    (by decide) (by decide) (by decide)]
  simp only [show digitsToNat ['1', '2', '3', '4'] = 1234 from by decide,
    show digitsToNat ['5', '0'] = 50 from by decide,
    show (['5', '0'] : List Char).length = 2 from rfl]
  norm_num

/-- Evaluation: `float("abc")` raises `ValueError`. -/
theorem parseFloat_abc : parseFloat "abc" = none :=
  parseFloat_one_part_none (c := 'a') (t := ['b', 'c'])
    (a := ['a', 'b', 'c']) (by decide) (by decide) (by decide) (by decide)
    (by decide)

/-- The C4/§8 scenario: a sheet with one parsable and one unparsable price,
both rows matching day 18 of different months, aggregates to one record with
count 2, total 1234.50 and rate 617.25. -/
theorem aggregate_scenario_c4 :
    aggregate_report_data
      [("Acme", [["h1", "h2", "h3", "h4"],
                 ["a", "01/18/2026", "y", "$1,234.50"],
                 ["b", "02/18/2026", "y", "abc"]])]
      ⟨2026, 1, 10⟩ 18 CONFIG
    = [{ client := "Acme", didQty := 2, didRate := 2469 / 4,
         totalPrice := 2469 / 2, expiringInDays := 8,
         status := "Active" }] := by
  have hppa : parse_price 3 ["a", "01/18/2026", "y", "$1,234.50"]
      = 2469 / 2 := by
    refine parse_price_eval (s := "$1,234.50") (by decide) ?_
    rw [show pyStrip (removeChar ',' (removeChar '$' "$1,234.50")) = "1234.50"
      from by decide]
    exact parseFloat_1234_50
  have hppb : parse_price 3 ["b", "02/18/2026", "y", "abc"] = 0 := by
    refine parse_price_eval_none (s := "abc") (by decide) ?_
    rw [show pyStrip (removeChar ',' (removeChar '$' "abc")) = "abc"
      from by decide]
    exact parseFloat_abc
  have hsum : summarize 8 18 CONFIG
      ("Acme", [["h1", "h2", "h3", "h4"],
                ["a", "01/18/2026", "y", "$1,234.50"],
                ["b", "02/18/2026", "y", "abc"]])
      = some ⟨"Acme", 2, (2469 / 2) / (2 : ℚ), 2469 / 2, 8, "Active"⟩ := by
    have h := summarize_eval 8 18 CONFIG
      ("Acme", [["h1", "h2", "h3", "h4"],
                ["a", "01/18/2026", "y", "$1,234.50"],
                ["b", "02/18/2026", "y", "abc"]])
      [["a", "01/18/2026", "y", "$1,234.50"],
       ["b", "02/18/2026", "y", "abc"]] (2469 / 2)
      (by decide) (by decide)
      (by simp [CONFIG, hppa, hppb])
    simpa [CONFIG] using h
  have hexp : calculate_expiring_days ⟨2026, 1, 10⟩ 18 = 8 := by decide
  simp only [aggregate_report_data, hexp, List.filterMap_cons,
    List.filterMap_nil, hsum]
  simp [SummaryRecord.mk.injEq]
  norm_num

/-- C4: price parsing strips `$` and thousands separators before decimal
conversion (`"$1,234.50"` contributes 1234.50), an unparsable cell
contributes 0 without raising, and every emitted record's count is the
number of date-matched rows — determined by the date filter alone,
independent of price parse success. -/
theorem parse_price_spec (snap : CacheData) (today : PyDate)
    (target_day : Nat) (cfg : Config) (rec : SummaryRecord)
    (h : rec ∈ aggregate_report_data snap today target_day cfg) :
    (∃ name rows, (name, rows) ∈ snap ∧ rec.client = name
      ∧ rec.didQty = (filter_rows_by_day rows target_day cfg).length
      ∧ rec.totalPrice = ((filter_rows_by_day rows target_day cfg).map
          (parse_price cfg.priceColumnIndex)).sum)
    ∧ parse_price 3 ["id", "01/05/2026", "x", "$1,234.50"] = 2469 / 2
    ∧ parse_price 3 ["id", "01/05/2026", "x", "abc"] = 0
    ∧ aggregate_report_data
        [("Acme", [["h1", "h2", "h3", "h4"],
                   ["a", "01/18/2026", "y", "$1,234.50"],
                   ["b", "02/18/2026", "y", "abc"]])]
        ⟨2026, 1, 10⟩ 18 CONFIG
      = [{ client := "Acme", didQty := 2, didRate := 2469 / 4,
           totalPrice := 2469 / 2, expiringInDays := 8,
           status := "Active" }] := by
  refine ⟨?_, ?_, ?_, aggregate_scenario_c4⟩
  · simp only [aggregate_report_data] at h
    obtain ⟨⟨en, erows⟩, hmem, hsum⟩ := List.mem_filterMap.mp h
    obtain ⟨_, hcl, hqty, htot, _⟩ := summarize_eq_some hsum
    exact ⟨en, erows, hmem, hcl, hqty, htot⟩
  · refine parse_price_eval (s := "$1,234.50") (by decide) ?_
    rw [show pyStrip (removeChar ',' (removeChar '$' "$1,234.50")) = "1234.50"
      from by decide]
    exact parseFloat_1234_50
  · refine parse_price_eval_none (s := "abc") (by decide) ?_
    rw [show pyStrip (removeChar ',' (removeChar '$' "abc")) = "abc"
      from by decide]
    exact parseFloat_abc

/-- C4 witness: the scenario record is emitted, and its count and total are
exactly the filtered length and summed parsed prices of the Acme sheet. -/
theorem parse_price_spec_witness :
    ∃ name rows,
      (name, rows) ∈ ([("Acme", [["h1", "h2", "h3", "h4"],
                                 ["a", "01/18/2026", "y", "$1,234.50"],
                                 ["b", "02/18/2026", "y", "abc"]])] : CacheData)
      ∧ (SummaryRecord.mk "Acme" 2 (2469 / 4) (2469 / 2) 8 "Active").client
          = name
      ∧ (SummaryRecord.mk "Acme" 2 (2469 / 4) (2469 / 2) 8 "Active").didQty
          = (filter_rows_by_day rows 18 CONFIG).length
      ∧ (SummaryRecord.mk "Acme" 2 (2469 / 4) (2469 / 2) 8 "Active").totalPrice
          = ((filter_rows_by_day rows 18 CONFIG).map
              (parse_price CONFIG.priceColumnIndex)).sum :=
  (parse_price_spec
    [("Acme", [["h1", "h2", "h3", "h4"],
               ["a", "01/18/2026", "y", "$1,234.50"],
               ["b", "02/18/2026", "y", "abc"]])]
    ⟨2026, 1, 10⟩ 18 CONFIG
    (SummaryRecord.mk "Acme" 2 (2469 / 4) (2469 / 2) 8 "Active")
    (by rw [aggregate_scenario_c4]; exact List.mem_singleton.mpr rfl)).1

/-- The aggregate of the C3 witness snapshot: one record for Acme, none for
the sheet with no matching rows. -/
theorem aggregate_scenario_c3 :
    aggregate_report_data
      [("Acme", [["h1", "h2", "h3", "h4"], ["x", "03/18/2024", "y", "$10.00"]]),
       ("Empty", [["h"], ["x", "03/19/2024"]])]
      ⟨2026, 1, 10⟩ 18 CONFIG
    = [{ client := "Acme", didQty := 1, didRate := 10, totalPrice := 10,
         expiringInDays := 8, status := "Active" }] := by
  have hpp : parse_price 3 ["x", "03/18/2024", "y", "$10.00"] = 10 := by
    refine parse_price_eval (s := "$10.00") (by decide) ?_
    rw [show pyStrip (removeChar ',' (removeChar '$' "$10.00")) = "10.00"
      from by decide]
    exact parseFloat_10_00
  have hsumA : summarize 8 18 CONFIG
      ("Acme", [["h1", "h2", "h3", "h4"], ["x", "03/18/2024", "y", "$10.00"]])
      = some ⟨"Acme", 1, 10 / (1 : ℚ), 10, 8, "Active"⟩ := by
    have h := summarize_eval 8 18 CONFIG
      ("Acme", [["h1", "h2", "h3", "h4"], ["x", "03/18/2024", "y", "$10.00"]])
      [["x", "03/18/2024", "y", "$10.00"]] 10
      (by decide) (by decide) (by simp [CONFIG, hpp])
    simpa [CONFIG] using h
  have hsumE : summarize 8 18 CONFIG ("Empty", [["h"], ["x", "03/19/2024"]])
      = none := by
    simp [summarize, show filter_rows_by_day [["h"], ["x", "03/19/2024"]] 18
      CONFIG = [] from by decide]
  have hexp : calculate_expiring_days ⟨2026, 1, 10⟩ 18 = 8 := by decide
  simp only [aggregate_report_data, hexp, List.filterMap_cons,
    List.filterMap_nil, hsumA, hsumE]
  simp [SummaryRecord.mk.injEq]

/-- C3 witness: in a two-sheet snapshot, the matching sheet's record has
count 1 and rate = total/count, and the non-matching sheet is absent. -/
theorem aggregate_report_data_spec_witness :
    (1 ≤ (SummaryRecord.mk "Acme" 1 10 10 8 "Active").didQty
      ∧ (SummaryRecord.mk "Acme" 1 10 10 8 "Active").didRate
          = (SummaryRecord.mk "Acme" 1 10 10 8 "Active").totalPrice
            / ((SummaryRecord.mk "Acme" 1 10 10 8 "Active").didQty : ℚ))
    ∧ "Empty" ∉ (aggregate_report_data
        [("Acme", [["h1", "h2", "h3", "h4"], ["x", "03/18/2024", "y", "$10.00"]]),
         ("Empty", [["h"], ["x", "03/19/2024"]])]
        ⟨2026, 1, 10⟩ 18 CONFIG).map SummaryRecord.client :=
  ⟨(aggregate_report_data_spec
      [("Acme", [["h1", "h2", "h3", "h4"], ["x", "03/18/2024", "y", "$10.00"]]),
       ("Empty", [["h"], ["x", "03/19/2024"]])]
      ⟨2026, 1, 10⟩ 18 CONFIG).1
    (SummaryRecord.mk "Acme" 1 10 10 8 "Active")
    (by rw [aggregate_scenario_c3]; exact List.mem_singleton.mpr rfl),
   (aggregate_report_data_spec
      [("Acme", [["h1", "h2", "h3", "h4"], ["x", "03/18/2024", "y", "$10.00"]]),
       ("Empty", [["h"], ["x", "03/19/2024"]])]
      ⟨2026, 1, 10⟩ 18 CONFIG).2
    "Empty" [["h"], ["x", "03/19/2024"]]
    (by simp) (by decide)
    (by decide)⟩

/-! ## Per-sheet cache-hit policy (C6) -/

/-- A lookup that succeeds is unaffected by entries appended behind it. -/
theorem dictFind_append_left {d : CacheData} {l : CacheData} {k : String}
    {v : List (List String)} (h : dictFind d k = some v) :
    dictFind (d ++ l) k = some v := by
  induction d with
  | nil => simp [dictFind] at h
  | cons e tl ih =>
    obtain ⟨k', v'⟩ := e
    by_cases hk : k' = k
    · simpa [dictFind, hk] using h
    · rw [dictFind, if_neg hk] at h
      simpa [dictFind, hk] using ih h

/-- One `run_data_fetch` step never removes or overwrites a cached sheet. -/
theorem fetchStep_find {fetch : String → Option (List (List String))}
    {st : CacheData × Nat} {n k : String} {v : List (List String)}
    (h : dictFind st.1 k = some v) :
    dictFind (fetchStep fetch st n).1 k = some v := by
  rw [fetchStep]
  split
  · exact h
  · cases hf : fetch n with
    | none => simpa using h
    | some rows => simpa using dictFind_append_left h

/-- The whole `run_data_fetch` loop never removes or overwrites a cached
sheet. -/
theorem runLoop_find (fetch : String → Option (List (List String)))
    (names : List String) :
    ∀ (st : CacheData × Nat) (k : String) (v : List (List String)),
      dictFind st.1 k = some v →
      dictFind ((names.foldl (fetchStep fetch) st)).1 k = some v := by
  induction names with
  | nil => intro st k v h; exact h
  | cons n tl ih =>
    intro st k v h
    exact ih (fetchStep fetch st n) k v (fetchStep_find h)

/-- The `run_data_fetch` loop never consults `fetch` at a sheet name that is
already cached: its result only depends on the values of `fetch` at other
names. -/
theorem runLoop_congr (fetch fetch2 : String → Option (List (List String)))
    (name : String) (hf : ∀ n, n ≠ name → fetch2 n = fetch n)
    (names : List String) :
    ∀ (st : CacheData × Nat) (rows : List (List String)),
      dictFind st.1 name = some rows →
      names.foldl (fetchStep fetch2) st = names.foldl (fetchStep fetch) st := by
  induction names with
  | nil => intro st rows _; rfl
  | cons n tl ih =>
    intro st rows h
    by_cases hn : n = name
    · subst hn
      have hskip : ∀ (g : String → Option (List (List String))),
          fetchStep g st n = st := by
        intro g
        rw [fetchStep, if_pos (by simp [h])]
      rw [List.foldl_cons, List.foldl_cons, hskip fetch, hskip fetch2]
      exact ih st rows h
    · have hstep : fetchStep fetch2 st n = fetchStep fetch st n := by
        rw [fetchStep, fetchStep, hf n hn]
      rw [List.foldl_cons, List.foldl_cons, hstep]
      exact ih (fetchStep fetch st n) rows (fetchStep_find h)

/-- C6: a sheet that already has an entry in the existing snapshot when the
refresh loop runs keeps exactly its old rows in the final snapshot, and the
fetch function is never consulted for it — the run behaves identically under
any fetch function that only differs at that sheet's name. -/
theorem run_data_fetch_cache_hit
    (fetch fetch2 : String → Option (List (List String)))
    (names : List String) (existing : CacheData) (name : String)
    (rows : List (List String)) (h : dictFind existing name = some rows) :
    dictFind (run_data_fetch fetch names existing).1 name = some rows
    ∧ ((∀ n, n ≠ name → fetch2 n = fetch n) →
        run_data_fetch fetch2 names existing
          = run_data_fetch fetch names existing) := by
  constructor
  · exact runLoop_find fetch names (existing, 0) name rows h
  · intro hf
    exact runLoop_congr fetch fetch2 name hf names (existing, 0) rows h

/-- C6 witness: with sheet A cached, the run keeps A's rows and is blind to
what `fetch` would return for A. -/
theorem run_data_fetch_cache_hit_witness :
    dictFind (run_data_fetch (fun _ => some [["h"], ["r", "s"]]) ["A", "B"]
      [("A", [["old"]])]).1 "A" = some [["old"]]
    ∧ run_data_fetch (fun n => if n = "A" then none else some [["h"], ["r", "s"]])
        ["A", "B"] [("A", [["old"]])]
      = run_data_fetch (fun _ => some [["h"], ["r", "s"]]) ["A", "B"]
        [("A", [["old"]])] := by
  have h := run_data_fetch_cache_hit (fun _ => some [["h"], ["r", "s"]])
    (fun n => if n = "A" then none else some [["h"], ["r", "s"]])
    ["A", "B"] [("A", [["old"]])] "A" [["old"]] (by decide)
  exact ⟨h.1, h.2 (fun n hn => by simp [hn])⟩

/-! ## Per-sheet failure isolation (C7) -/

/-- A failed fetch of an uncached sheet leaves the cache untouched and only
bumps the failure counter. -/
theorem processSheet_fail {fetch : String → Option (List (List String))}
    {td : Nat} {cfg : Config} {st : CacheData × FetchReport} {n : String}
    (h1 : dictFind st.1 n = none) (h2 : fetch n = none) :
    processSheet fetch td cfg st n = (st.1, bumpSkippedError st.2) := by
  simp [processSheet, h1, h2, bumpSkippedError]

/-- A step of the worksheet loop commutes with bumping the failure counter:
no branch reads it. -/
theorem processSheet_bump (fetch : String → Option (List (List String)))
    (td : Nat) (cfg : Config) (c : CacheData) (r : FetchReport) (n : String) :
    processSheet fetch td cfg (c, bumpSkippedError r) n
      = ((processSheet fetch td cfg (c, r) n).1,
         bumpSkippedError (processSheet fetch td cfg (c, r) n).2) := by
  simp only [processSheet]
  cases hdf : dictFind c n with
  | some rows =>
    by_cases hl : rows.length ≤ 1 <;> simp [hl, bumpSkippedError]
  | none =>
    cases hf : fetch n with
    | none => rfl
    | some rows =>
      by_cases he : rows = [] <;> by_cases hl : rows.length ≤ 1 <;>
        simp [he, hl, bumpSkippedError]

/-- The whole worksheet loop commutes with bumping the failure counter. -/
theorem foldl_processSheet_bump (fetch : String → Option (List (List String)))
    (td : Nat) (cfg : Config) (names : List String) :
    ∀ (c : CacheData) (r : FetchReport),
      names.foldl (processSheet fetch td cfg) (c, bumpSkippedError r)
        = ((names.foldl (processSheet fetch td cfg) (c, r)).1,
           bumpSkippedError
             (names.foldl (processSheet fetch td cfg) (c, r)).2) := by
  induction names with
  | nil => intro c r; rfl
  | cons n tl ih =>
    intro c r
    rw [List.foldl_cons, List.foldl_cons, processSheet_bump]
    simpa using ih (processSheet fetch td cfg (c, r) n).1
      (processSheet fetch td cfg (c, r) n).2

/-- The cache produced by one step does not depend on the report counters. -/
theorem processSheet_cache_indep
    (fetch : String → Option (List (List String))) (td : Nat) (cfg : Config)
    (c : CacheData) (n : String) (r r' : FetchReport) :
    (processSheet fetch td cfg (c, r) n).1
      = (processSheet fetch td cfg (c, r') n).1 := by
  simp only [processSheet]
  cases hdf : dictFind c n with
  | some rows => by_cases hl : rows.length ≤ 1 <;> simp [hl]
  | none =>
    cases hf : fetch n with
    | none => rfl
    | some rows =>
      by_cases he : rows = [] <;> by_cases hl : rows.length ≤ 1 <;>
        simp [he, hl]

/-- The cache produced by the whole loop does not depend on the initial
report counters. -/
theorem foldl_cache_indep (fetch : String → Option (List (List String)))
    (td : Nat) (cfg : Config) (names : List String) :
    ∀ (c : CacheData) (r r' : FetchReport),
      (names.foldl (processSheet fetch td cfg) (c, r)).1
        = (names.foldl (processSheet fetch td cfg) (c, r')).1 := by
  induction names with
  | nil => intro c r r'; rfl
  | cons n tl ih =>
    intro c r r'
    rw [List.foldl_cons, List.foldl_cons]
    have h1 := processSheet_cache_indep fetch td cfg c n r r'
    rw [show processSheet fetch td cfg (c, r) n
        = ((processSheet fetch td cfg (c, r) n).1,
           (processSheet fetch td cfg (c, r) n).2) from rfl,
      show processSheet fetch td cfg (c, r') n
        = ((processSheet fetch td cfg (c, r') n).1,
           (processSheet fetch td cfg (c, r') n).2) from rfl,
      ← h1]
    exact ih _ _ _

/-- Appending an entry with a different key does not affect a lookup. -/
theorem dictFind_append_singleton_ne {c : CacheData} {n bad : String}
    {v : List (List String)} (hne : n ≠ bad) :
    dictFind (c ++ [(n, v)]) bad = dictFind c bad := by
  induction c with
  | nil => simp [dictFind, hne]
  | cons e tl ih =>
    obtain ⟨k, w⟩ := e
    by_cases hk : k = bad <;> simp [dictFind, hk, ih]

/-- One step at a different sheet leaves an absent key absent. -/
theorem processSheet_find_none
    {fetch : String → Option (List (List String))} {td : Nat} {cfg : Config}
    {c : CacheData} {r : FetchReport} {n bad : String} (hne : n ≠ bad)
    (h : dictFind c bad = none) :
    dictFind (processSheet fetch td cfg (c, r) n).1 bad = none := by
  simp only [processSheet]
  cases hdf : dictFind c n with
  | some rows => by_cases hl : rows.length ≤ 1 <;> simp [hl, h]
  | none =>
    cases hf : fetch n with
    | none => simpa using h
    | some rows =>
      by_cases he : rows = [] <;> by_cases hl : rows.length ≤ 1 <;>
        simp [he, hl, h, dictFind_append_singleton_ne hne]

/-- A sheet name outside the processed list and absent from the initial
cache is still absent after the loop. -/
theorem foldl_find_none (fetch : String → Option (List (List String)))
    (td : Nat) (cfg : Config) (names : List String) :
    ∀ (c : CacheData) (r : FetchReport) (bad : String), bad ∉ names →
      dictFind c bad = none →
      dictFind ((names.foldl (processSheet fetch td cfg) (c, r))).1 bad
        = none := by
  induction names with
  | nil => intro c r bad _ h; exact h
  | cons n tl ih =>
    intro c r bad hnin h
    rw [List.foldl_cons]
    have hne : n ≠ bad := fun he => hnin (he ▸ List.mem_cons_self n tl)
    have hstep := @processSheet_find_none fetch td cfg c r n bad hne h
    simpa using ih (processSheet fetch td cfg (c, r) n).1
      (processSheet fetch td cfg (c, r) n).2 bad
      (fun hm => hnin (List.mem_cons_of_mem _ hm)) hstep

/-- C7: when the fetch of one uncached sheet fails, the run does not abort:
the whole worksheet list is still folded through, the final state is exactly
the state of the run without that sheet except for the failure counter
incremented once, and the snapshot handed to `save_data_to_cache` at the end
is identical. -/
theorem processSheet_failure_isolated
    (fetch : String → Option (List (List String))) (td : Nat) (cfg : Config)
    (pre post : List String) (bad : String) (ex : CacheData)
    (r : FetchReport) (h1 : fetch bad = none) (h2 : dictFind ex bad = none)
    (h3 : bad ∉ pre) :
    (pre ++ bad :: post).foldl (processSheet fetch td cfg) (ex, r)
      = (((pre ++ post).foldl (processSheet fetch td cfg) (ex, r)).1,
         bumpSkippedError
           (((pre ++ post).foldl (processSheet fetch td cfg) (ex, r)).2))
    ∧ (find_rows_with_target_day_interactive fetch (pre ++ bad :: post) td
        cfg ex).1
      = (find_rows_with_target_day_interactive fetch (pre ++ post) td cfg
          ex).1 := by
  have main : ∀ (r0 : FetchReport),
      (pre ++ bad :: post).foldl (processSheet fetch td cfg) (ex, r0)
        = (((pre ++ post).foldl (processSheet fetch td cfg) (ex, r0)).1,
           bumpSkippedError
             (((pre ++ post).foldl (processSheet fetch td cfg) (ex, r0)).2)) := by
    intro r0
    rw [List.foldl_append, List.foldl_append, List.foldl_cons]
    have hfind :
        dictFind ((pre.foldl (processSheet fetch td cfg) (ex, r0))).1 bad
          = none :=
      foldl_find_none fetch td cfg pre ex r0 bad h3 h2
    rw [processSheet_fail hfind h1]
    simpa using foldl_processSheet_bump fetch td cfg post
      (pre.foldl (processSheet fetch td cfg) (ex, r0)).1
      (pre.foldl (processSheet fetch td cfg) (ex, r0)).2
  refine ⟨main r, ?_⟩
  rw [find_rows_with_target_day_interactive,
    find_rows_with_target_day_interactive, main _]
  exact foldl_cache_indep fetch td cfg (pre ++ post) ex _ _

/-- C7 witness: sheet B's fetch fails between A and C; the persisted
snapshot equals that of the run without B. -/
theorem processSheet_failure_isolated_witness :
    (find_rows_with_target_day_interactive
      (fun n => if n = "B" then none
        else some [["h"], ["x", "01/18/2026", "y", "$1"]])
      ["A", "B", "C"] 18 CONFIG []).1
    = (find_rows_with_target_day_interactive
      (fun n => if n = "B" then none
        else some [["h"], ["x", "01/18/2026", "y", "$1"]])
      ["A", "C"] 18 CONFIG []).1 :=
  (processSheet_failure_isolated
    (fun n => if n = "B" then none
      else some [["h"], ["x", "01/18/2026", "y", "$1"]])
    18 CONFIG ["A"] ["C"] "B" [] ⟨3, 0, 0, 0, 0, 0⟩
    (by simp) (by decide) (by decide)).2

/-! ## JSON cache round trip (C8) -/

/-- Decoding inverts encoding for one row's cells. -/
theorem decodeCells_encode (r : List String) :
    decodeCells (r.map Json.str) = some r := by
  induction r with
  | nil => rfl
  | cons s tl ih => simp [decodeCells, ih]

/-- Decoding inverts encoding for a list of rows. -/
theorem decodeRowList_encode (rows : List (List String)) :
    decodeRowList (rows.map (fun r => .arr (r.map Json.str))) = some rows := by
  induction rows with
  | nil => rfl
  | cons r tl ih => simp [decodeRowList, decodeCells_encode, ih]

/-- Decoding inverts encoding for one sheet's value. -/
theorem decodeRows_encode (rows : List (List String)) :
    decodeRows (encodeRows rows) = some rows := by
  simp [decodeRows, encodeRows, decodeRowList_encode]

/-- Decoding inverts encoding for the field list of the snapshot object. -/
theorem decodeFields_encode (c : CacheData) :
    decodeFields (c.map (fun e => (e.1, encodeRows e.2))) = some c := by
  induction c with
  | nil => rfl
  | cons e tl ih =>
    obtain ⟨k, v⟩ := e
    simp [decodeFields, decodeRows_encode, ih]

/-- A `dictInsert` of a fresh key appends it. -/
theorem dictInsert_not_mem {d : CacheData} {k : String}
    {v : List (List String)} (h : k ∉ d.map Prod.fst) :
    dictInsert d k v = d ++ [(k, v)] := by
  induction d with
  | nil => rfl
  | cons e tl ih =>
    obtain ⟨k', v'⟩ := e
    simp only [List.map_cons, List.mem_cons] at h
    push_neg at h
    rw [dictInsert, if_neg (fun he => h.1 he.symm), ih h.2]
    rfl

/-- The keys after `dictInsert`: unchanged for an update, extended by the
new key otherwise. -/
theorem keys_dictInsert (d : CacheData) (k : String)
    (v : List (List String)) :
    (dictInsert d k v).map Prod.fst
      = if k ∈ d.map Prod.fst then d.map Prod.fst
        else d.map Prod.fst ++ [k] := by
  induction d with
  | nil => simp [dictInsert]
  | cons e tl ih =>
    obtain ⟨k', v'⟩ := e
    by_cases hk : k' = k
    · simp [dictInsert, hk]
    · rw [dictInsert, if_neg hk]
      have hne : ¬ k = k' := fun he => hk he.symm
      by_cases hm : k ∈ tl.map Prod.fst <;> simp [hm, ih, hne]

/-- The `dictInsert` operation preserves distinctness of keys. -/
theorem nodup_keys_dictInsert {d : CacheData} {k : String}
    {v : List (List String)} (h : (d.map Prod.fst).Nodup) :
    ((dictInsert d k v).map Prod.fst).Nodup := by
  rw [keys_dictInsert]
  by_cases hm : k ∈ d.map Prod.fst
  · simpa [hm] using h
  · simp [hm, List.nodup_append, h]

/-- Folding `dictInsert` over a pair list always yields distinct keys. -/
theorem nodup_keys_dictOfPairs (ps : List (String × List (List String))) :
    ((dictOfPairs ps).map Prod.fst).Nodup := by
  have main : ∀ (acc : CacheData), (acc.map Prod.fst).Nodup →
      ((ps.foldl (fun d e => dictInsert d e.1 e.2) acc).map Prod.fst).Nodup := by
    induction ps with
    | nil => intro acc h; exact h
    | cons e tl ih =>
      intro acc h
      exact ih (dictInsert acc e.1 e.2) (nodup_keys_dictInsert h)
  exact main [] (by simp)

/-- Folding `dictInsert` over a pair list with globally distinct keys just
appends the pairs. -/
theorem foldl_dictInsert_of_nodup :
    ∀ (ps : List (String × List (List String))) (acc : CacheData),
      (((acc ++ ps).map Prod.fst)).Nodup →
      ps.foldl (fun d e => dictInsert d e.1 e.2) acc = acc ++ ps := by
  intro ps
  induction ps with
  | nil => intro acc _; simp
  | cons e tl ih =>
    intro acc hnd
    obtain ⟨k, v⟩ := e
    have hk : k ∉ acc.map Prod.fst := by
      intro hm
      rw [List.map_append, List.nodup_append] at hnd
      exact hnd.2.2 hm (by simp)
    rw [List.foldl_cons,
      show dictInsert acc (k, v).1 (k, v).2 = dictInsert acc k v from rfl,
      dictInsert_not_mem hk, ih (acc ++ [(k, v)]) (by simpa using hnd)]
    simp

/-- Rebuilding the dict from a pair list with distinct keys is the
identity. -/
theorem dictOfPairs_eq_self {ps : List (String × List (List String))}
    (h : (ps.map Prod.fst).Nodup) : dictOfPairs ps = ps := by
  have := foldl_dictInsert_of_nodup ps [] (by simpa using h)
  simpa using this

/-- C8: cache persistence round-trips — any snapshot obtainable from
`load_data_from_cache` (a decoded JSON value), when written back by
`save_data_to_cache` (encoded) and read again, decodes to an equal
snapshot. -/
theorem cache_roundtrip (j : Json) (c : CacheData)
    (h : decodeCache j = some c) :
    decodeCache (encodeCache c) = some c := by
  have hnd : ((c.map Prod.fst)).Nodup := by
    cases j with
    | str s => simp [decodeCache] at h
    | arr l => simp [decodeCache] at h
    | obj fields =>
      simp only [decodeCache] at h
      cases hdf : decodeFields fields with
      | none => rw [hdf] at h; simp at h
      | some ps =>
        rw [hdf] at h
        simp at h
        rw [← h]
        exact nodup_keys_dictOfPairs ps
  calc decodeCache (encodeCache c)
      = some (dictOfPairs c) := by
        simp [decodeCache, encodeCache, decodeFields_encode]
    _ = some c := by rw [dictOfPairs_eq_self hnd]

/-- C8 witness: a concrete decoded snapshot survives the
write-then-read round trip. -/
theorem cache_roundtrip_witness :
    decodeCache (encodeCache [("A", [["x", "y"]]), ("B", [])])
      = some [("A", [["x", "y"]]), ("B", [])] :=
  cache_roundtrip
    (Json.obj [("A", Json.arr [Json.arr [Json.str "x", Json.str "y"]]),
               ("B", Json.arr [])])
    [("A", [["x", "y"]]), ("B", [])] (by rfl)

/-! ## Empty-report rendering (C9) -/

/-- C9: rendering zero aggregated records prints exactly the two-line
"no data found" notice and nothing else — in particular neither of the
printed lines is one of the 85-character separator rules that delimit a
table, so no degenerate header/separator table is ever emitted. -/
theorem format_report_empty (target_day : Nat) (cfg : Config)
    (h : target_day ≤ 31) :
    format_and_print_terminal_report [] target_day cfg
      = some ["\n\n--- TERMINAL REPORT ---",
          "No aggregated data found for day " ++ toString target_day ++ "."]
    ∧ ∀ line ∈ ["\n\n--- TERMINAL REPORT ---",
        "No aggregated data found for day " ++ toString target_day ++ "."],
        line ≠ repChar 85 '-' ∧ line ≠ repChar 85 '=' := by
  constructor
  · simp [format_and_print_terminal_report]
  · have hlen : (toString target_day).length ≤ 2 := by
      have hall : ∀ n < 32, (toString n).length ≤ 2 := by decide
      exact hall target_day (by omega)
    intro line hline
    have h2 : (repChar 85 '-').length = 85 := by decide
    have h3 : (repChar 85 '=').length = 85 := by decide
    have key : line.length ≤ 36 := by
      rcases List.mem_cons.mp hline with hb | hline2
      · rw [hb]
        decide
      · rcases List.mem_cons.mp hline2 with hm | hnone
        · rw [hm, String.length_append, String.length_append,
            show ("No aggregated data found for day ").length = 33
              from by decide,
            show (".").length = 1 from by decide]
          omega
        · simp at hnone
    refine ⟨fun he => ?_, fun he => ?_⟩
    · rw [he, h2] at key
      omega
    · rw [he, h3] at key
      omega

/-- C9 witness: for day 7 the renderer emits exactly the two-line notice. -/
theorem format_report_empty_witness :
    format_and_print_terminal_report [] 7 CONFIG
      = some ["\n\n--- TERMINAL REPORT ---",
          "No aggregated data found for day " ++ toString 7 ++ "."] :=
  (format_report_empty 7 CONFIG (by decide)).1

end DIDMan
